import Mathlib

/-!
Shallow embedding of the Snowlink core (src/agent/schema_drift.py,
src/agent/lineage_tracker.py, src/agent/orchestrator.py) and proofs about it.

Python dictionaries that may lack keys are embedded as structures with
`Option` fields; a direct `d["key"]` access on a possibly-missing key is
embedded in the `Except String` monad (a `KeyError` becomes `Except.error`).
Python sets of strings are embedded as first-occurrence-deduplicated lists;
every property proved below is insensitive to iteration order.  Wall-clock
fields (`detected_at`, `generated_at`, `created_at`, `duration_seconds`,
`timestamp`) are outside the embedding.
-/

namespace Snowlink

/-! ## Schema drift detection (src/agent/schema_drift.py) -/

/-- The `DriftType` enum (schema_drift.py lines 17-25). -/
inductive DriftType where
  | table_missing_in_snowflake
  | table_missing_in_docs
  | column_missing_in_snowflake
  | column_missing_in_docs
  | type_mismatch
  | description_mismatch
  | nullable_mismatch
deriving DecidableEq, Repr

/-- The `DriftSeverity` enum (schema_drift.py lines 28-32). -/
inductive DriftSeverity where
  | high
  | medium
  | low
deriving DecidableEq, Repr

/-- The `DriftIssue` dataclass (schema_drift.py lines 35-45), minus the
wall-clock `detected_at` field. -/
structure DriftIssue where
  drift_type : DriftType
  severity : DriftSeverity
  table_name : String
  column_name : Option String
  expected_value : Option String
  actual_value : Option String
  message : String
deriving DecidableEq, Repr

/-- The `DriftReport` dataclass (schema_drift.py lines 48-58), minus the
wall-clock `generated_at` field. -/
structure DriftReport where
  documented_tables : Nat
  snowflake_tables : Nat
  total_issues : Nat
  high_severity : Nat
  medium_severity : Nat
  low_severity : Nat
  issues : List DriftIssue
deriving DecidableEq, Repr

/-- A column record of a schema dict.  Each field is `Option` because the
Python input is a plain dict that may lack the key (`data_type` also uses
`None` for an explicit null; `.get` cannot tell the two apart). -/
structure ColumnDict where
  column_name : Option String
  data_type : Option String
  nullable : Option Bool
deriving DecidableEq, Repr

/-- A table record of a schema dict. -/
structure TableDict where
  table_name : Option String
  columns : Option (List ColumnDict)
deriving DecidableEq, Repr

/-- A schema dict (the `documented_schema` argument of `compare`, and the
shape returned by `snowflake_client.get_existing_schema`). -/
structure SchemaDict where
  tables : Option (List TableDict)
deriving DecidableEq, Repr

/-- Sequencing of fallible per-element computations, as Python's
comprehensions behave: the first raised `KeyError` propagates. -/
def mapExcept (f : α → Except String β) : List α → Except String (List β)
  | [] => Except.ok []
  | x :: xs =>
    match f x with
    | Except.error e => Except.error e
    | Except.ok y =>
      match mapExcept f xs with
      | Except.error e => Except.error e
      | Except.ok ys => Except.ok (y :: ys)

/-- Python `set(...)` built from a list, as a first-occurrence-deduplicated
list of its elements. -/
def pySet (l : List String) : List String :=
  l.foldl (fun acc x => if x ∈ acc then acc else acc ++ [x]) []

/-- Python set difference `a - b` over the deduplicated lists. -/
def pyDiff (a b : List String) : List String :=
  a.filter (fun x => decide (x ∉ b))

/-- Python set intersection `a & b` over the deduplicated lists. -/
def pyInter (a b : List String) : List String :=
  a.filter (fun x => decide (x ∈ b))

/-- Python `str.upper()` on an identifier, as the per-character uppercase
map over the string's characters (structural recursion, so concrete
comparisons reduce inside proofs). -/
def pyUpper (s : String) : String := String.mk (s.data.map Char.toUpper)

/-- Embeds `t["table_name"].upper()` paired with the record itself; a
missing key raises `KeyError`. -/
def tableNamePair (t : TableDict) : Except String (String × TableDict) :=
  match t.table_name with
  | some n => Except.ok (pyUpper n, t)
  | none => Except.error "KeyError: table_name"

/-- Embeds `c["column_name"].upper()` paired with the record itself. -/
def colNamePair (c : ColumnDict) : Except String (String × ColumnDict) :=
  match c.column_name with
  | some n => Except.ok (pyUpper n, c)
  | none => Except.error "KeyError: column_name"

/-- One insertion into a Python dict: a duplicate key overwrites the value
in place, a fresh key is appended (dicts preserve key insertion order). -/
def dictInsert (d : List (String × ColumnDict)) (k : String) (v : ColumnDict) :
    List (String × ColumnDict) :=
  if d.any (fun p => decide (p.1 = k)) then
    d.map (fun p => if p.1 = k then (k, v) else p)
  else d ++ [(k, v)]

/-- The dict comprehension `{c["column_name"].upper(): c for c in cols}`
applied to the already-extracted `(key, value)` pairs. -/
def buildColDict (pairs : List (String × ColumnDict)) : List (String × ColumnDict) :=
  pairs.foldl (fun d p => dictInsert d p.1 p.2) []

/-- Keys of an embedded dict, in insertion order. -/
def dictKeys (d : List (String × ColumnDict)) : List String := d.map Prod.fst

/-- Dict lookup `d[k]` (`find?` is adequate: keys are unique by
construction). -/
def dictGet (d : List (String × ColumnDict)) (k : String) : Option ColumnDict :=
  (d.find? (fun p => decide (p.1 = k))).map Prod.snd

/-- Embeds `_types_compatible` (schema_drift.py lines 217-231). -/
def types_compatible (type1 type2 : String) : Bool :=
  let type_groups : List (List String) :=
    [["VARCHAR", "STRING", "TEXT", "CHAR", "CHARACTER"],
     ["INT", "INTEGER", "BIGINT", "SMALLINT", "NUMBER"],
     ["FLOAT", "DOUBLE", "REAL", "DECIMAL", "NUMERIC"],
     ["BOOL", "BOOLEAN"],
     ["DATE", "DATETIME", "TIMESTAMP", "TIMESTAMP_NTZ", "TIMESTAMP_LTZ"]]
  if type_groups.any (fun g => g.contains type1 && g.contains type2) then true
  else type1 == type2

/-- Python `str(b)` on a boolean. -/
def pyStr (b : Bool) : String := if b then "True" else "False"

/-- Embeds `_compare_columns` (schema_drift.py lines 146-215). -/
def compare_columns (table_name : String) (doc_table actual_table : TableDict) :
    Except String (List DriftIssue) :=
  match mapExcept colNamePair (doc_table.columns.getD []) with
  | Except.error e => Except.error e
  | Except.ok docPairs =>
  match mapExcept colNamePair (actual_table.columns.getD []) with
  | Except.error e => Except.error e
  | Except.ok actPairs =>
    let doc_columns := buildColDict docPairs
    let actual_columns := buildColDict actPairs
    let missing_sf := (pyDiff (dictKeys doc_columns) (dictKeys actual_columns)).map
      (fun col_name =>
        { drift_type := DriftType.column_missing_in_snowflake,
          severity := DriftSeverity.high,
          table_name := table_name,
          column_name := some col_name,
          expected_value := none,
          actual_value := none,
          message := "Column " ++ table_name ++ "." ++ col_name ++
            " is documented but does not exist" })
    let missing_docs := (pyDiff (dictKeys actual_columns) (dictKeys doc_columns)).map
      (fun col_name =>
        { drift_type := DriftType.column_missing_in_docs,
          severity := DriftSeverity.medium,
          table_name := table_name,
          column_name := some col_name,
          expected_value := none,
          actual_value := none,
          message := "Column " ++ table_name ++ "." ++ col_name ++
            " exists but is not documented" })
    let common_issues := (pyInter (dictKeys doc_columns) (dictKeys actual_columns)).flatMap
      (fun col_name =>
        match dictGet doc_columns col_name, dictGet actual_columns col_name with
        | some doc_col, some actual_col =>
          let doc_type := pyUpper (doc_col.data_type.getD "")
          let actual_type := pyUpper (actual_col.data_type.getD "")
          let type_issues :=
            if doc_type ≠ "" ∧ actual_type ≠ "" ∧ doc_type ≠ actual_type then
              if ¬ (types_compatible doc_type actual_type = true) then
                [{ drift_type := DriftType.type_mismatch,
                   severity := DriftSeverity.high,
                   table_name := table_name,
                   column_name := some col_name,
                   expected_value := some doc_type,
                   actual_value := some actual_type,
                   message := "Type mismatch for " ++ table_name ++ "." ++ col_name ++
                     ": documented as " ++ doc_type ++ ", actual is " ++ actual_type }]
              else []
            else []
          let doc_nullable := doc_col.nullable.getD true
          let actual_nullable := actual_col.nullable.getD true
          let nullable_issues :=
            if doc_nullable ≠ actual_nullable then
              [{ drift_type := DriftType.nullable_mismatch,
                 severity := DriftSeverity.medium,
                 table_name := table_name,
                 column_name := some col_name,
                 expected_value := some (pyStr doc_nullable),
                 actual_value := some (pyStr actual_nullable),
                 message := "Nullable mismatch for " ++ table_name ++ "." ++ col_name }]
            else []
          type_issues ++ nullable_issues
        | _, _ => [])
    Except.ok (missing_sf ++ missing_docs ++ common_issues)

/-- The body of the loop over common tables (schema_drift.py lines 122-136):
`next(...)` finds the first documented and the first live table record with
the given canonical name; columns are compared only under the
`if doc_table and actual_table` guard. -/
def commonTableIssues (docPairs actPairs : List (String × TableDict))
    (table_name : String) : Except String (List DriftIssue) :=
  match (docPairs.find? (fun p => decide (p.1 = table_name))).map Prod.snd,
        (actPairs.find? (fun p => decide (p.1 = table_name))).map Prod.snd with
  | some doc_table, some actual_table =>
    compare_columns table_name doc_table actual_table
  | _, _ => Except.ok []

/-- The final totals block of `compare` (schema_drift.py lines 138-142). -/
def mkReport (documented_tables snowflake_tables : Nat) (issues : List DriftIssue) :
    DriftReport :=
  { documented_tables := documented_tables,
    snowflake_tables := snowflake_tables,
    total_issues := issues.length,
    high_severity := issues.countP (fun i => decide (i.severity = DriftSeverity.high)),
    medium_severity := issues.countP (fun i => decide (i.severity = DriftSeverity.medium)),
    low_severity := issues.countP (fun i => decide (i.severity = DriftSeverity.low)),
    issues := issues }

/-- Embeds `compare` (schema_drift.py lines 70-144).  The Snowflake client is
abstracted at its interface boundary: `actual_schema` is the value
`self.snowflake_client.get_existing_schema(...)` returned. -/
def compare (documented_schema actual_schema : SchemaDict) : Except String DriftReport :=
  let documented_tables := (documented_schema.tables.getD []).length
  match mapExcept tableNamePair (documented_schema.tables.getD []) with
  | Except.error e => Except.error e
  | Except.ok docPairs =>
  match mapExcept tableNamePair (actual_schema.tables.getD []) with
  | Except.error e => Except.error e
  | Except.ok actPairs =>
    let doc_table_names := pySet (docPairs.map Prod.fst)
    let actual_table_names := pySet (actPairs.map Prod.fst)
    let snowflake_tables := actual_table_names.length
    let missing_sf := (pyDiff doc_table_names actual_table_names).map
      (fun table_name =>
        { drift_type := DriftType.table_missing_in_snowflake,
          severity := DriftSeverity.high,
          table_name := table_name,
          column_name := none,
          expected_value := none,
          actual_value := none,
          message := "Table " ++ table_name ++
            " is documented but does not exist in Snowflake" })
    let missing_docs := (pyDiff actual_table_names doc_table_names).map
      (fun table_name =>
        { drift_type := DriftType.table_missing_in_docs,
          severity := DriftSeverity.medium,
          table_name := table_name,
          column_name := none,
          expected_value := none,
          actual_value := none,
          message := "Table " ++ table_name ++
            " exists in Snowflake but is not documented" })
    let common_tables := pyInter doc_table_names actual_table_names
    match mapExcept (commonTableIssues docPairs actPairs) common_tables with
    | Except.error e => Except.error e
    | Except.ok column_issue_lists =>
      Except.ok (mkReport documented_tables snowflake_tables
        (missing_sf ++ missing_docs ++ column_issue_lists.flatten))

/-! ## Lineage tracking (src/agent/lineage_tracker.py)

The `LineageTracker` state is the pair of its in-memory collections
`self.nodes` (a dict, embedded as an insertion-ordered association list)
and `self.edges` (a list).  `_save`/`_load` rewrite the same collections to
disk and are outside the embedding. -/

/-- The `LineageNode` dataclass (lineage_tracker.py lines 17-24), minus the
wall-clock `created_at` field; the free-form metadata dict is embedded as a
key-value list. -/
structure LineageNode where
  id : String
  type : String
  name : String
  metadata : List (String × Option String)
deriving DecidableEq, Repr

/-- The `LineageEdge` dataclass (lineage_tracker.py lines 27-34), minus the
wall-clock `created_at` field. -/
structure LineageEdge where
  source_id : String
  target_id : String
  relationship : String
  metadata : List (String × Option String)
deriving DecidableEq, Repr

/-- The in-memory state of a `LineageTracker`. -/
structure LineageGraph where
  nodes : List (String × LineageNode)
  edges : List LineageEdge
deriving DecidableEq, Repr

/-- Dict lookup `self.nodes[k]`, with `k in self.nodes` as `isSome`. -/
def nodeGet (nodes : List (String × LineageNode)) (k : String) : Option LineageNode :=
  (nodes.find? (fun p => decide (p.1 = k))).map Prod.snd

/-- Embeds `add_edge` (lineage_tracker.py lines 177-197): a no-op when any
edge with the same `(source_id, target_id)` pair already exists, regardless
of the relationship label; otherwise appends. -/
def add_edge (g : LineageGraph) (source_id target_id relationship : String)
    (metadata : Option (List (String × Option String))) : LineageGraph :=
  if g.edges.any (fun e => decide (e.source_id = source_id) &&
      decide (e.target_id = target_id)) then g
  else
    { g with edges := g.edges ++
        [{ source_id := source_id, target_id := target_id,
           relationship := relationship, metadata := metadata.getD [] }] }

/-- One element of the list returned by `get_upstream` / `get_downstream`. -/
structure TraversalEntry where
  id : String
  name : String
  type : String
  relationship : String
  depth : Nat
deriving DecidableEq, Repr

/-- Traversal state: the call-scoped `visited` set and the accumulated
`result` list. -/
abbrev TravState := List String × List TraversalEntry

/-- The `for edge in self.edges` loop inside `get_downstream`'s `traverse`
(lineage_tracker.py lines 267-278), over the remaining `pending` edges.
The recursive `traverse(edge.target_id, current_depth + 1)` call the loop
body makes is abstracted as the function argument `rec`, so that both
functions are structurally recursive. -/
def downGo (nodes : List (String × LineageNode))
    (rec : String → TravState → TravState) (cur : String) (curDepth : Nat) :
    List LineageEdge → TravState → TravState
  | [], st => st
  | e :: rest, st =>
    if e.source_id = cur then
      match nodeGet nodes e.target_id with
      | some node =>
        let st1 := (st.1, st.2 ++
          [{ id := node.id, name := node.name, type := node.type,
             relationship := e.relationship, depth := curDepth }])
        downGo nodes rec cur curDepth rest (rec e.target_id st1)
      | none => downGo nodes rec cur curDepth rest st
    else downGo nodes rec cur curDepth rest st

/-- The recursive `traverse(current_id, current_depth)` of `get_downstream`
(lineage_tracker.py lines 261-278).  The guard `current_depth > depth` is
carried as `fuel = depth + 1 - current_depth`, which is zero exactly when
the guard fires; `curDepth` remains the reported depth value. -/
def downTrav (nodes : List (String × LineageNode)) (edges : List LineageEdge) :
    Nat → String → Nat → TravState → TravState
  | 0, _, _, st => st
  | fuel + 1, cur, curDepth, st =>
    if cur ∈ st.1 then st
    else downGo nodes (fun tid => downTrav nodes edges fuel tid (curDepth + 1))
      cur curDepth edges (st.1 ++ [cur], st.2)

/-- The `for edge in self.edges` loop inside `get_upstream`'s `traverse`
(lineage_tracker.py lines 240-251), mirror image of `downGo`. -/
def upGo (nodes : List (String × LineageNode))
    (rec : String → TravState → TravState) (cur : String) (curDepth : Nat) :
    List LineageEdge → TravState → TravState
  | [], st => st
  | e :: rest, st =>
    if e.target_id = cur then
      match nodeGet nodes e.source_id with
      | some node =>
        let st1 := (st.1, st.2 ++
          [{ id := node.id, name := node.name, type := node.type,
             relationship := e.relationship, depth := curDepth }])
        upGo nodes rec cur curDepth rest (rec e.source_id st1)
      | none => upGo nodes rec cur curDepth rest st
    else upGo nodes rec cur curDepth rest st

/-- The recursive `traverse` of `get_upstream` (lineage_tracker.py lines
234-251), mirror image of `downTrav`. -/
def upTrav (nodes : List (String × LineageNode)) (edges : List LineageEdge) :
    Nat → String → Nat → TravState → TravState
  | 0, _, _, st => st
  | fuel + 1, cur, curDepth, st =>
    if cur ∈ st.1 then st
    else upGo nodes (fun sid => upTrav nodes edges fuel sid (curDepth + 1))
      cur curDepth edges (st.1 ++ [cur], st.2)

/-- Embeds `get_downstream` (lineage_tracker.py lines 256-281): the initial
call is `traverse(node_id, 1)`, so the initial fuel is `depth`. -/
def get_downstream (g : LineageGraph) (node_id : String) (depth : Nat) :
    List TraversalEntry :=
  (downTrav g.nodes g.edges depth node_id 1 ([], [])).2

/-- Embeds `get_upstream` (lineage_tracker.py lines 229-254). -/
def get_upstream (g : LineageGraph) (node_id : String) (depth : Nat) :
    List TraversalEntry :=
  (upTrav g.nodes g.edges depth node_id 1 ([], [])).2

/-! ## Sync orchestration (src/agent/orchestrator.py)

`sync_confluence_page` is embedded as a function of a `SyncEnv` describing
what each external collaborator does when called during the job: a
collaborator call either returns its value (`Except.ok`) or raises
(`Except.error`), and any raise is caught by the single job-level
`try/except` handler of the source.  The function also returns the trace of
pipeline steps it started, so that theorems can state which steps ran.
Audit logging and notifications — fire-and-forget collaborators the result
does not depend on — are modelled in their disabled configuration
(`audit.enabled = false`, no notification channel enabled), and
`post_diagram` in its default `False`. -/

/-- What `self.confluence.get_page` returned (none embeds a falsy result,
which the job turns into `ValueError`). -/
structure PageData where
  title : String
  url : Option String
deriving DecidableEq, Repr

/-- What `self.snowflake.write_comments` returned. -/
structure WriteCommentsResult where
  tables_updated : Nat
  columns_updated : Nat
  errors : List String
deriving DecidableEq, Repr

/-- Behaviour of the external collaborators during one sync job, plus the
configuration flags the job reads. -/
structure SyncEnv where
  page_id : String
  page : Option PageData
  extract : Except String (Option SchemaDict)
  vector_enabled : Bool
  vector_add : Except String Unit
  lineage_enabled : Bool
  lineage_register : Except String Unit
  drift_enabled : Bool
  live_schema : Except String SchemaDict
  write : Except String WriteCommentsResult
  dbt_enabled : Bool
  dbt_generate : Except String Unit
  er_enabled : Bool
  er_generate : Except String Unit
  quality_enabled : Bool
  quality_run : Except String Nat

/-- The `SyncResult` dataclass (orchestrator.py lines 32-46), minus the
wall-clock `duration_seconds` and `timestamp` fields. -/
structure SyncResult where
  success : Bool
  source_type : String
  source_id : String
  tables_found : Nat
  tables_updated : Nat
  columns_updated : Nat
  drift_issues : Nat
  quality_failures : Nat
  errors : List String
  warnings : List String
deriving DecidableEq, Repr

/-- Pipeline steps a sync job starts, in order. -/
inductive Step where
  | fetch
  | extract
  | vector
  | lineage
  | drift
  | write
  | dbt
  | er
  | quality
deriving DecidableEq, Repr

/-- Embeds `sync_confluence_page` (orchestrator.py lines 134-335).  Returns
the `SyncResult` and the trace of started steps.  A raise at any point is
caught by the job-level handler (lines 323-331), which appends the message
to `errors` and leaves `success` as it was. -/
def sync_confluence_page (env : SyncEnv)
    (dry_run skip_drift_check skip_quality_check : Bool) :
    SyncResult × List Step :=
  let r0 : SyncResult :=
    { success := false, source_type := "confluence", source_id := env.page_id,
      tables_found := 0, tables_updated := 0, columns_updated := 0,
      drift_issues := 0, quality_failures := 0, errors := [], warnings := [] }
  match env.page with
  | none =>
    ({ r0 with errors := ["Failed to fetch page " ++ env.page_id] }, [Step.fetch])
  | some _page =>
  match env.extract with
  | Except.error e =>
    ({ r0 with errors := [e] }, [Step.fetch, Step.extract])
  | Except.ok none =>
    ({ r0 with success := true, warnings := ["No tables found in content"] },
     [Step.fetch, Step.extract])
  | Except.ok (some schema) =>
  if schema.tables.getD [] = [] then
    ({ r0 with success := true, warnings := ["No tables found in content"] },
     [Step.fetch, Step.extract])
  else
  let r1 := { r0 with tables_found := (schema.tables.getD []).length }
  let t2 := [Step.fetch, Step.extract] ++
    (if env.vector_enabled then [Step.vector] else [])
  match (if env.vector_enabled then env.vector_add else Except.ok ()) with
  | Except.error e => ({ r1 with errors := r1.errors ++ [e] }, t2)
  | Except.ok _ =>
  let t3 := t2 ++ (if env.lineage_enabled then [Step.lineage] else [])
  match (if env.lineage_enabled then env.lineage_register else Except.ok ()) with
  | Except.error e => ({ r1 with errors := r1.errors ++ [e] }, t3)
  | Except.ok _ =>
  let drift_on := env.drift_enabled && !skip_drift_check
  let t4 := t3 ++ (if drift_on then [Step.drift] else [])
  match (if drift_on then
           (match env.live_schema with
            | Except.error e => Except.error e
            | Except.ok live => compare schema live).map some
         else Except.ok none) with
  | Except.error e => ({ r1 with errors := r1.errors ++ [e] }, t4)
  | Except.ok drift_report =>
  let r2 :=
    match drift_report with
    | some report =>
      { r1 with drift_issues := report.total_issues,
                warnings := r1.warnings ++
                  (if report.high_severity > 0 then
                    ["Schema drift: " ++ toString report.high_severity ++
                     " high severity issues"]
                  else []) }
    | none => r1
  if dry_run then ({ r2 with success := true }, t4)
  else
  let t5 := t4 ++ [Step.write]
  match env.write with
  | Except.error e => ({ r2 with errors := r2.errors ++ [e] }, t5)
  | Except.ok sf_result =>
  let r3 := { r2 with tables_updated := sf_result.tables_updated,
                      columns_updated := sf_result.columns_updated,
                      errors := r2.errors ++ sf_result.errors }
  let t6 := t5 ++ (if env.dbt_enabled then [Step.dbt] else [])
  match (if env.dbt_enabled then env.dbt_generate else Except.ok ()) with
  | Except.error e => ({ r3 with errors := r3.errors ++ [e] }, t6)
  | Except.ok _ =>
  let t7 := t6 ++ (if env.er_enabled then [Step.er] else [])
  match (if env.er_enabled then env.er_generate else Except.ok ()) with
  | Except.error e => ({ r3 with errors := r3.errors ++ [e] }, t7)
  | Except.ok _ =>
  let quality_on := env.quality_enabled && !skip_quality_check
  let t8 := t7 ++ (if quality_on then [Step.quality] else [])
  match (if quality_on then env.quality_run else Except.ok 0) with
  | Except.error e => ({ r3 with errors := r3.errors ++ [e] }, t8)
  | Except.ok failed =>
  ({ r3 with quality_failures := failed, success := true }, t8)

/-- The `BatchSyncResult` dataclass (orchestrator.py lines 49-56), minus the
wall-clock `duration_seconds` field. -/
structure BatchSyncResult where
  total_sources : Nat
  successful : Nat
  failed : Nat
  results : List SyncResult
deriving DecidableEq, Repr

/-- Embeds `batch_sync` (orchestrator.py lines 463-539) over a list of
Confluence jobs.  Each job runs `sync_confluence_page` with default skip
flags; results are collected in submission order in both branches (the
parallel branch iterates `future.result()` over the futures in submission
order), and each job's collaborators are its own `SyncEnv`, so the two
branches compute the same list and are embedded uniformly. -/
def batch_sync (jobs : List SyncEnv) (dry_run : Bool) : BatchSyncResult :=
  let results := jobs.map (fun env => (sync_confluence_page env dry_run false false).1)
  { total_sources := jobs.length,
    successful := results.countP (fun r => r.success),
    failed := results.countP (fun r => !r.success),
    results := results }

/-! ## Predicates and concrete instances used by the theorems -/

/-- A snapshot whose table records all carry a `table_name` key and whose
column records all carry a `column_name` key — what the spec's data model
calls a `SchemaSnapshot` (names are mandatory there). -/
def NamesPresent (s : SchemaDict) : Prop :=
  ∀ t ∈ s.tables.getD [], t.table_name.isSome = true ∧
    ∀ c ∈ t.columns.getD [], c.column_name.isSome = true

/-- Column names unique within each table after upper-case
canonicalization (the §3 invariant of the spec). -/
def ColumnsUnique (s : SchemaDict) : Prop :=
  ∀ t ∈ s.tables.getD [],
    ((t.columns.getD []).map (fun c => pyUpper (c.column_name.getD ""))).Nodup

/-- Shape every issue produced by `compare` has: severity is high or medium,
the type is never `description_mismatch`, and a `type_mismatch` issue always
records an incompatible documented/actual type pair. -/
def IssueInv (i : DriftIssue) : Prop :=
  (i.severity = DriftSeverity.high ∨ i.severity = DriftSeverity.medium) ∧
  i.drift_type ≠ DriftType.description_mismatch ∧
  (i.drift_type = DriftType.type_mismatch →
    i.severity = DriftSeverity.high ∧
    ∃ dt av, i.expected_value = some dt ∧ i.actual_value = some av ∧
      types_compatible dt av = false)

/-- The value the table-name comprehension pairs take on a list of table
records whose `table_name` keys are all present. -/
def namedPairs (ts : List TableDict) : List (String × TableDict) :=
  ts.map (fun t => (pyUpper (t.table_name.getD ""), t))

/-- The value the column-name comprehension pairs take on a list of column
records whose `column_name` keys are all present (which is the case
whenever the comprehension does not raise). -/
def colNamedPairs (cs : List ColumnDict) : List (String × ColumnDict) :=
  cs.map (fun c => (pyUpper (c.column_name.getD ""), c))

/-- A snapshot with one table holding one column of the given type. -/
def mkSingle (tname cname ty : String) : SchemaDict :=
  { tables := some [{ table_name := some tname,
                      columns := some [{ column_name := some cname,
                                         data_type := some ty,
                                         nullable := none }] }] }

/-- Documented side of the type-equivalence scenarios. -/
def ordersVarcharDoc : SchemaDict := mkSingle "ORDERS" "ID" "VARCHAR"

/-- Live side with an equivalent string-like type. -/
def ordersStringLive : SchemaDict := mkSingle "ORDERS" "ID" "STRING"

/-- Live side with a non-equivalent integer type. -/
def ordersIntegerLive : SchemaDict := mkSingle "ORDERS" "ID" "INTEGER"

/-- The one issue `compare` reports on the `VARCHAR` vs `INTEGER` scenario. -/
def ordersTypeIssue : DriftIssue :=
  { drift_type := DriftType.type_mismatch,
    severity := DriftSeverity.high,
    table_name := "ORDERS",
    column_name := some "ID",
    expected_value := some "VARCHAR",
    actual_value := some "INTEGER",
    message := "Type mismatch for ORDERS.ID: documented as VARCHAR, actual is INTEGER" }

/-- A snapshot holding one table record that lacks the `table_name` key. -/
def unnamedTableSchema : SchemaDict := { tables := some [{ table_name := none, columns := none }] }

/-- The empty schema dict (no `tables` key at all). -/
def emptySchema : SchemaDict := { tables := none }

/-- A table node entry keyed by its id, as `add_table` produces. -/
def tnode (s : String) : String × LineageNode :=
  (s, { id := s, type := "table", name := s, metadata := [] })

/-- A `documented_in` edge between two node ids. -/
def redge (a b : String) : LineageEdge :=
  { source_id := a, target_id := b, relationship := "documented_in", metadata := [] }

/-- Diamond graph: S feeds A and B, and both feed C, so C is reachable
from S along two different paths. -/
def diamondGraph : LineageGraph :=
  { nodes := [tnode "S", tnode "A", tnode "B", tnode "C"],
    edges := [redge "S" "A", redge "S" "B", redge "A" "C", redge "B" "C"] }

/-- The spec's cyclic scenario A→B→C→A. -/
def cycleGraph : LineageGraph :=
  { nodes := [tnode "A", tnode "B", tnode "C"],
    edges := [redge "A" "B", redge "B" "C", redge "C" "A"] }

/-- The empty lineage graph. -/
def emptyGraph : LineageGraph := { nodes := [], edges := [] }

/-- A graph state already holding an edge a→b labelled r0. -/
def preEdgedGraph : LineageGraph :=
  { nodes := [],
    edges := [{ source_id := "a", target_id := "b", relationship := "r0",
                metadata := [] }] }

/-- Collaborator behaviour for a job whose every external call succeeds:
one extracted table, lineage and drift enabled, live schema identical to
the documented one. -/
def okEnv : SyncEnv :=
  { page_id := "p1",
    page := some { title := "Orders doc", url := none },
    extract := Except.ok (some (mkSingle "ORDERS" "ID" "VARCHAR")),
    vector_enabled := false,
    vector_add := Except.ok (),
    lineage_enabled := true,
    lineage_register := Except.ok (),
    drift_enabled := true,
    live_schema := Except.ok (mkSingle "ORDERS" "ID" "VARCHAR"),
    write := Except.ok { tables_updated := 1, columns_updated := 1, errors := [] },
    dbt_enabled := false,
    dbt_generate := Except.ok (),
    er_enabled := false,
    er_generate := Except.ok (),
    quality_enabled := false,
    quality_run := Except.ok 0 }

/-- Same job, but the lineage-registration block raises. -/
def lineageFailEnv : SyncEnv :=
  { okEnv with lineage_register := Except.error "lineage boom" }

/-- A job whose fetch returns a falsy page. -/
def fetchFailEnv : SyncEnv := { okEnv with page_id := "p2", page := none }

/-- A job whose extraction returns a falsy schema. -/
def noTablesEnv : SyncEnv := { okEnv with extract := Except.ok none }

/-! ## Helper lemmas -/

theorem mapExcept_ok_mem {α β : Type} {f : α → Except String β} :
    ∀ {l : List α} {ys : List β}, mapExcept f l = Except.ok ys →
      ∀ y ∈ ys, ∃ x ∈ l, f x = Except.ok y := by
  intro l
  induction l with
  | nil =>
    intro ys h y hy
    simp only [mapExcept, Except.ok.injEq] at h
    subst h
    simp at hy
  | cons x xs ih =>
    intro ys h y hy
    simp only [mapExcept] at h
    cases h1 : f x with
    | error e => rw [h1] at h; simp at h
    | ok b =>
      rw [h1] at h
      cases h2 : mapExcept f xs with
      | error e => rw [h2] at h; simp at h
      | ok bs =>
        rw [h2] at h
        simp only [Except.ok.injEq] at h
        subst h
        rcases List.mem_cons.mp hy with hy | hy
        · exact ⟨x, List.mem_cons_self x xs, hy ▸ h1⟩
        · rcases ih h2 y hy with ⟨a, ha, hfa⟩
          exact ⟨a, List.mem_cons_of_mem x ha, hfa⟩

theorem mapExcept_eq_map {α β : Type} {f : α → Except String β} {g : α → β} :
    ∀ {l : List α}, (∀ x ∈ l, f x = Except.ok (g x)) →
      mapExcept f l = Except.ok (l.map g) := by
  intro l
  induction l with
  | nil => intro _; rfl
  | cons x xs ih =>
    intro h
    simp only [mapExcept, h x (List.mem_cons_self x xs),
      ih (fun a ha => h a (List.mem_cons_of_mem x ha)), List.map_cons]

theorem mapExcept_total {α β : Type} {f : α → Except String β} :
    ∀ {l : List α}, (∀ x ∈ l, ∃ y, f x = Except.ok y) →
      ∃ ys, mapExcept f l = Except.ok ys := by
  intro l
  induction l with
  | nil => intro _; exact ⟨[], rfl⟩
  | cons x xs ih =>
    intro h
    rcases h x (List.mem_cons_self x xs) with ⟨y, hy⟩
    rcases ih (fun a ha => h a (List.mem_cons_of_mem x ha)) with ⟨ys, hys⟩
    exact ⟨y :: ys, by simp only [mapExcept, hy, hys]⟩

theorem pyDiff_self (l : List String) : pyDiff l l = [] := by
  simp only [pyDiff, List.filter_eq_nil_iff, decide_eq_true_eq]
  intro a ha
  simp [ha]

theorem pyInter_self (l : List String) : pyInter l l = l := by
  simp only [pyInter, List.filter_eq_self, decide_eq_true_eq]
  exact fun a ha => ha

theorem countP_severities (issues : List DriftIssue) :
    issues.countP (fun i => decide (i.severity = DriftSeverity.high)) +
    issues.countP (fun i => decide (i.severity = DriftSeverity.medium)) +
    issues.countP (fun i => decide (i.severity = DriftSeverity.low)) =
    issues.length := by
  induction issues with
  | nil => rfl
  | cons i l ih =>
    cases h : i.severity <;>
      simp only [List.countP_cons, h, decide_eq_true_eq, List.length_cons] <;>
      simp <;> omega

theorem compare_columns_inv {tn : String} {dt at' : TableDict}
    {issues : List DriftIssue}
    (h : compare_columns tn dt at' = Except.ok issues) :
    ∀ i ∈ issues, IssueInv i := by
  intro i hi
  unfold compare_columns at h
  cases h1 : mapExcept colNamePair (dt.columns.getD []) with
  | error e => rw [h1] at h; simp at h
  | ok docPairs =>
  rw [h1] at h
  cases h2 : mapExcept colNamePair (at'.columns.getD []) with
  | error e => rw [h2] at h; simp at h
  | ok actPairs =>
  rw [h2] at h
  simp only [Except.ok.injEq] at h
  subst h
  rcases List.mem_append.mp hi with hm | hm
  · rcases List.mem_append.mp hm with hm | hm
    · rcases List.mem_map.mp hm with ⟨c, _, hc⟩
      subst hc
      refine ⟨Or.inl rfl, by simp, by simp⟩
    · rcases List.mem_map.mp hm with ⟨c, _, hc⟩
      subst hc
      refine ⟨Or.inr rfl, by simp, by simp⟩
  · rcases List.mem_flatMap.mp hm with ⟨cn, _, hcn⟩
    cases hga : dictGet (buildColDict docPairs) cn with
    | none => rw [hga] at hcn; simp at hcn
    | some doc_col =>
    cases hgb : dictGet (buildColDict actPairs) cn with
    | none => rw [hga, hgb] at hcn; simp at hcn
    | some actual_col =>
    rw [hga, hgb] at hcn
    simp only at hcn
    rcases List.mem_append.mp hcn with hm2 | hm2
    · split at hm2
      · split at hm2
        · next hcomp =>
          rcases List.mem_singleton.mp hm2 with rfl
          refine ⟨Or.inl rfl, by simp, fun _ => ⟨rfl, _, _, rfl, rfl, ?_⟩⟩
          exact Bool.eq_false_iff.mpr hcomp
        · simp at hm2
      · simp at hm2
    · split at hm2
      · rcases List.mem_singleton.mp hm2 with rfl
        refine ⟨Or.inr rfl, by simp, by simp⟩
      · simp at hm2

theorem compare_ok_inv {A B : SchemaDict} {r : DriftReport}
    (h : compare A B = Except.ok r) :
    (∃ nt ns issues, r = mkReport nt ns issues) ∧ ∀ i ∈ r.issues, IssueInv i := by
  unfold compare at h
  cases h1 : mapExcept tableNamePair (A.tables.getD []) with
  | error e => rw [h1] at h; simp at h
  | ok docPairs =>
  rw [h1] at h
  cases h2 : mapExcept tableNamePair (B.tables.getD []) with
  | error e => rw [h2] at h; simp at h
  | ok actPairs =>
  rw [h2] at h
  simp only at h
  split at h
  · simp at h
  · next column_issue_lists h3 =>
    simp only [Except.ok.injEq] at h
    subst h
    refine ⟨⟨_, _, _, rfl⟩, ?_⟩
    intro i hi
    simp only [mkReport] at hi
    rcases List.mem_append.mp hi with hm | hm
    · rcases List.mem_append.mp hm with hm | hm
      · rcases List.mem_map.mp hm with ⟨tn, _, htn⟩
        subst htn
        exact ⟨Or.inl rfl, by simp, by simp⟩
      · rcases List.mem_map.mp hm with ⟨tn, _, htn⟩
        subst htn
        exact ⟨Or.inr rfl, by simp, by simp⟩
    · rcases List.mem_flatten.mp hm with ⟨l, hl, hil⟩
      rcases mapExcept_ok_mem h3 l hl with ⟨tn, _, htn⟩
      unfold commonTableIssues at htn
      cases hfa : (docPairs.find? (fun p => decide (p.1 = tn))).map Prod.snd with
      | none =>
        rw [hfa] at htn
        simp only [Except.ok.injEq] at htn
        subst htn
        simp at hil
      | some doc_table =>
      cases hfb : (actPairs.find? (fun p => decide (p.1 = tn))).map Prod.snd with
      | none =>
        rw [hfa, hfb] at htn
        simp only [Except.ok.injEq] at htn
        subst htn
        simp at hil
      | some actual_table =>
        rw [hfa, hfb] at htn
        exact compare_columns_inv htn i hil

theorem tableNamePair_named {t : TableDict} (h : t.table_name.isSome = true) :
    tableNamePair t = Except.ok (pyUpper (t.table_name.getD ""), t) := by
  cases htn : t.table_name with
  | none => rw [htn] at h; simp at h
  | some n => simp [tableNamePair, htn]

theorem tableNamePair_snd {t : TableDict} {pr : String × TableDict}
    (h : tableNamePair t = Except.ok pr) : pr.2 = t := by
  unfold tableNamePair at h
  cases htn : t.table_name with
  | none => rw [htn] at h; simp at h
  | some n =>
    rw [htn] at h
    simp only [Except.ok.injEq] at h
    rw [← h]

theorem colNamePair_named {c : ColumnDict} (h : c.column_name.isSome = true) :
    colNamePair c = Except.ok (pyUpper (c.column_name.getD ""), c) := by
  cases hcn : c.column_name with
  | none => rw [hcn] at h; simp at h
  | some n => simp [colNamePair, hcn]

theorem compare_columns_refl {tn : String} {t : TableDict}
    (hc : ∀ c ∈ t.columns.getD [], c.column_name.isSome = true) :
    compare_columns tn t t = Except.ok [] := by
  have hmap : mapExcept colNamePair (t.columns.getD []) =
      Except.ok ((t.columns.getD []).map
        (fun c => (pyUpper (c.column_name.getD ""), c))) :=
    mapExcept_eq_map (fun c hcm => colNamePair_named (hc c hcm))
  unfold compare_columns
  rw [hmap]
  simp only
  rw [pyDiff_self, pyInter_self]
  simp only [List.map_nil, List.nil_append, Except.ok.injEq]
  rw [List.flatMap_eq_nil_iff]
  intro cn _
  cases hg : dictGet (buildColDict ((t.columns.getD []).map
      (fun c => (pyUpper (c.column_name.getD ""), c)))) cn with
  | none => simp
  | some c => simp

theorem compare_columns_total {tn : String} {dt at' : TableDict}
    (h1 : ∀ c ∈ dt.columns.getD [], c.column_name.isSome = true)
    (h2 : ∀ c ∈ at'.columns.getD [], c.column_name.isSome = true) :
    ∃ issues, compare_columns tn dt at' = Except.ok issues := by
  obtain ⟨dp, hdp⟩ := mapExcept_total (f := colNamePair)
    (fun c hc => ⟨_, colNamePair_named (h1 c hc)⟩)
  obtain ⟨ap, hap⟩ := mapExcept_total (f := colNamePair)
    (fun c hc => ⟨_, colNamePair_named (h2 c hc)⟩)
  unfold compare_columns
  rw [hdp, hap]
  exact ⟨_, rfl⟩

theorem mapExcept_error_mem {α β : Type} {f : α → Except String β} :
    ∀ {l : List α} {e : String}, mapExcept f l = Except.error e →
      ∃ x ∈ l, f x = Except.error e := by
  intro l
  induction l with
  | nil => intro e h; simp [mapExcept] at h
  | cons x xs ih =>
    intro e h
    simp only [mapExcept] at h
    cases h1 : f x with
    | error e' =>
      rw [h1] at h
      simp only [Except.error.injEq] at h
      subst h
      exact ⟨x, List.mem_cons_self x xs, h1⟩
    | ok b =>
      rw [h1] at h
      cases h2 : mapExcept f xs with
      | error e' =>
        rw [h2] at h
        simp only [Except.error.injEq] at h
        subst h
        obtain ⟨a, ha, hfa⟩ := ih h2
        exact ⟨a, List.mem_cons_of_mem x ha, hfa⟩
      | ok bs => rw [h2] at h; simp at h

theorem commonTableIssues_self {P : List (String × TableDict)}
    (hP : ∀ pr ∈ P, ∀ c ∈ pr.2.columns.getD [], c.column_name.isSome = true) :
    ∀ tn, commonTableIssues P P tn = Except.ok [] := by
  intro tn
  unfold commonTableIssues
  cases hf : P.find? (fun p => decide (p.1 = tn)) with
  | none => rfl
  | some pr =>
    simp only [Option.map_some']
    exact compare_columns_refl (hP pr (List.mem_of_find?_eq_some hf))

theorem commonTableIssues_total {dp ap : List (String × TableDict)}
    (h1 : ∀ pr ∈ dp, ∀ c ∈ pr.2.columns.getD [], c.column_name.isSome = true)
    (h2 : ∀ pr ∈ ap, ∀ c ∈ pr.2.columns.getD [], c.column_name.isSome = true) :
    ∀ tn, ∃ issues, commonTableIssues dp ap tn = Except.ok issues := by
  intro tn
  unfold commonTableIssues
  cases hf : dp.find? (fun p => decide (p.1 = tn)) with
  | none => exact ⟨[], rfl⟩
  | some pr =>
    cases hg : ap.find? (fun p => decide (p.1 = tn)) with
    | none => exact ⟨[], rfl⟩
    | some qr =>
      obtain ⟨issues, his⟩ := compare_columns_total
        (h1 pr (List.mem_of_find?_eq_some hf))
        (h2 qr (List.mem_of_find?_eq_some hg))
      exact ⟨issues, his⟩

theorem namedPairs_ok {s : SchemaDict} (h : NamesPresent s) :
    mapExcept tableNamePair (s.tables.getD []) =
      Except.ok (namedPairs (s.tables.getD [])) :=
  mapExcept_eq_map (fun t ht => tableNamePair_named (h t ht).1)

theorem namedPairs_cols {s : SchemaDict} (h : NamesPresent s) :
    ∀ pr ∈ namedPairs (s.tables.getD []),
      ∀ c ∈ pr.2.columns.getD [], c.column_name.isSome = true := by
  intro pr hpr
  simp only [namedPairs, List.mem_map] at hpr
  obtain ⟨t, ht, rfl⟩ := hpr
  exact (h t ht).2

theorem mapExcept_ok_forall {α β : Type} {f : α → Except String β} :
    ∀ {l : List α} {ys : List β}, mapExcept f l = Except.ok ys →
      ∀ x ∈ l, ∃ y ∈ ys, f x = Except.ok y := by
  intro l
  induction l with
  | nil => intro ys _ x hx; simp at hx
  | cons a as ih =>
    intro ys h x hx
    simp only [mapExcept] at h
    cases h1 : f a with
    | error e => rw [h1] at h; simp at h
    | ok b =>
      rw [h1] at h
      cases h2 : mapExcept f as with
      | error e => rw [h2] at h; simp at h
      | ok bs =>
        rw [h2] at h
        simp only [Except.ok.injEq] at h
        subst h
        rcases List.mem_cons.mp hx with rfl | hx
        · exact ⟨b, List.mem_cons_self b bs, h1⟩
        · obtain ⟨y, hy, hfy⟩ := ih h2 x hx
          exact ⟨y, List.mem_cons_of_mem b hy, hfy⟩

theorem mapExcept_ok_eq_map {α β : Type} {f : α → Except String β}
    {g : α → β} (hfg : ∀ x y, f x = Except.ok y → y = g x) :
    ∀ {l : List α} {ys : List β}, mapExcept f l = Except.ok ys →
      ys = l.map g := by
  intro l
  induction l with
  | nil =>
    intro ys h
    simp only [mapExcept, Except.ok.injEq] at h
    subst h
    rfl
  | cons a as ih =>
    intro ys h
    simp only [mapExcept] at h
    cases h1 : f a with
    | error e => rw [h1] at h; simp at h
    | ok b =>
      rw [h1] at h
      cases h2 : mapExcept f as with
      | error e => rw [h2] at h; simp at h
      | ok bs =>
        rw [h2] at h
        simp only [Except.ok.injEq] at h
        subst h
        rw [List.map_cons, hfg a b h1, ih h2]

theorem tableNamePair_ok_eq :
    ∀ (t : TableDict) (y : String × TableDict),
      tableNamePair t = Except.ok y → y = (pyUpper (t.table_name.getD ""), t) := by
  intro t y h
  unfold tableNamePair at h
  cases htn : t.table_name with
  | none => rw [htn] at h; simp at h
  | some n =>
    rw [htn] at h
    simp only [Except.ok.injEq] at h
    rw [← h]
    simp [htn]

theorem colNamePair_ok_eq :
    ∀ (c : ColumnDict) (y : String × ColumnDict),
      colNamePair c = Except.ok y → y = (pyUpper (c.column_name.getD ""), c) := by
  intro c y h
  unfold colNamePair at h
  cases hcn : c.column_name with
  | none => rw [hcn] at h; simp at h
  | some n =>
    rw [hcn] at h
    simp only [Except.ok.injEq] at h
    rw [← h]
    simp [hcn]

theorem mem_pySet_foldl (x : String) :
    ∀ (l acc : List String),
      x ∈ l.foldl (fun acc y => if y ∈ acc then acc else acc ++ [y]) acc ↔
        x ∈ acc ∨ x ∈ l := by
  intro l
  induction l with
  | nil => intro acc; simp
  | cons y rest ih =>
    intro acc
    simp only [List.foldl_cons]
    by_cases hy : y ∈ acc
    · rw [if_pos hy, ih acc]
      constructor
      · rintro (h | h)
        · exact Or.inl h
        · exact Or.inr (List.mem_cons_of_mem y h)
      · rintro (h | h)
        · exact Or.inl h
        · rcases List.mem_cons.mp h with rfl | h
          · exact Or.inl hy
          · exact Or.inr h
    · rw [if_neg hy, ih (acc ++ [y])]
      constructor
      · rintro (h | h)
        · rcases List.mem_append.mp h with h | h
          · exact Or.inl h
          · exact Or.inr (List.mem_cons.mpr (Or.inl (List.mem_singleton.mp h)))
        · exact Or.inr (List.mem_cons_of_mem y h)
      · rintro (h | h)
        · exact Or.inl (List.mem_append.mpr (Or.inl h))
        · rcases List.mem_cons.mp h with rfl | h
          · exact Or.inl (List.mem_append.mpr (Or.inr (List.mem_singleton.mpr rfl)))
          · exact Or.inr h

theorem mem_pySet {x : String} {l : List String} : x ∈ pySet l ↔ x ∈ l := by
  unfold pySet
  rw [mem_pySet_foldl]
  simp

/-- Successful `compare` runs determine the common-table issue lists: the
third `mapExcept` ran on the deduplicated common names over the named
pairs, and everything it produced is in the returned report. -/
theorem compare_ok_elim {A B : SchemaDict} {r : DriftReport}
    (h : compare A B = Except.ok r) :
    ∃ lists,
      mapExcept (commonTableIssues (namedPairs (A.tables.getD []))
          (namedPairs (B.tables.getD [])))
        (pyInter (pySet ((namedPairs (A.tables.getD [])).map Prod.fst))
          (pySet ((namedPairs (B.tables.getD [])).map Prod.fst))) =
        Except.ok lists ∧
      ∀ x ∈ lists.flatten, x ∈ r.issues := by
  unfold compare at h
  cases h1 : mapExcept tableNamePair (A.tables.getD []) with
  | error e => rw [h1] at h; simp at h
  | ok dp =>
  rw [h1] at h
  cases h2 : mapExcept tableNamePair (B.tables.getD []) with
  | error e => rw [h2] at h; simp at h
  | ok ap =>
  rw [h2] at h
  simp only at h
  split at h
  · simp at h
  · next lists h3 =>
    simp only [Except.ok.injEq] at h
    subst h
    have hdp : dp = namedPairs (A.tables.getD []) :=
      mapExcept_ok_eq_map tableNamePair_ok_eq h1
    have hap : ap = namedPairs (B.tables.getD []) :=
      mapExcept_ok_eq_map tableNamePair_ok_eq h2
    subst hdp
    subst hap
    refine ⟨lists, h3, fun x hx => ?_⟩
    exact List.mem_append.mpr (Or.inr hx)

/-- The must-flag core: when the column dicts of the two compared table
records both hold the canonical column name `C`, with documented type
normalizing to VARCHAR and live type to INTEGER, `_compare_columns` emits
the HIGH type-mismatch issue for it. -/
theorem compare_columns_flags {T C : String} {dt at' : TableDict}
    {l : List DriftIssue} {dc ac : ColumnDict}
    (h : compare_columns T dt at' = Except.ok l)
    (hdc : dictGet (buildColDict (colNamedPairs (dt.columns.getD []))) C = some dc)
    (hac : dictGet (buildColDict (colNamedPairs (at'.columns.getD []))) C = some ac)
    (hdty : pyUpper (dc.data_type.getD "") = "VARCHAR")
    (haty : pyUpper (ac.data_type.getD "") = "INTEGER") :
    ∃ i ∈ l, i.drift_type = DriftType.type_mismatch ∧
      i.severity = DriftSeverity.high ∧ i.table_name = T ∧
      i.column_name = some C ∧ i.expected_value = some "VARCHAR" ∧
      i.actual_value = some "INTEGER" := by
  unfold compare_columns at h
  cases h1 : mapExcept colNamePair (dt.columns.getD []) with
  | error e => rw [h1] at h; simp at h
  | ok dps =>
  rw [h1] at h
  cases h2 : mapExcept colNamePair (at'.columns.getD []) with
  | error e => rw [h2] at h; simp at h
  | ok aps =>
  rw [h2] at h
  have hdps : dps = colNamedPairs (dt.columns.getD []) :=
    mapExcept_ok_eq_map colNamePair_ok_eq h1
  have haps : aps = colNamedPairs (at'.columns.getD []) :=
    mapExcept_ok_eq_map colNamePair_ok_eq h2
  subst hdps
  subst haps
  simp only [Except.ok.injEq] at h
  subst h
  have hCd : C ∈ dictKeys (buildColDict (colNamedPairs (dt.columns.getD []))) := by
    obtain ⟨pr, hpr, hsnd⟩ := Option.map_eq_some'.mp hdc
    have hfst : pr.1 = C := by
      have := List.find?_some hpr
      simpa using this
    rw [← hfst]
    exact List.mem_map.mpr ⟨pr, List.mem_of_find?_eq_some hpr, rfl⟩
  have hCa : C ∈ dictKeys (buildColDict (colNamedPairs (at'.columns.getD []))) := by
    obtain ⟨pr, hpr, hsnd⟩ := Option.map_eq_some'.mp hac
    have hfst : pr.1 = C := by
      have := List.find?_some hpr
      simpa using this
    rw [← hfst]
    exact List.mem_map.mpr ⟨pr, List.mem_of_find?_eq_some hpr, rfl⟩
  have hCc : C ∈ pyInter
      (dictKeys (buildColDict (colNamedPairs (dt.columns.getD []))))
      (dictKeys (buildColDict (colNamedPairs (at'.columns.getD [])))) := by
    simp only [pyInter, List.mem_filter, decide_eq_true_eq]
    exact ⟨hCd, hCa⟩
  refine ⟨{ drift_type := DriftType.type_mismatch,
            severity := DriftSeverity.high,
            table_name := T,
            column_name := some C,
            expected_value := some "VARCHAR",
            actual_value := some "INTEGER",
            message := "Type mismatch for " ++ T ++ "." ++ C ++
              ": documented as " ++ "VARCHAR" ++ ", actual is " ++ "INTEGER" },
         ?_, rfl, rfl, rfl, rfl, rfl, rfl⟩
  refine List.mem_append.mpr (Or.inr (List.mem_flatMap.mpr ⟨C, hCc, ?_⟩))
  rw [hdc, hac]
  simp only
  rw [hdty, haty]
  rw [if_pos (by decide : ("VARCHAR" : String) ≠ "" ∧ ("INTEGER" : String) ≠ "" ∧
    ("VARCHAR" : String) ≠ "INTEGER")]
  rw [if_pos (by decide : ¬(types_compatible "VARCHAR" "INTEGER" = true))]
  exact List.mem_append.mpr (Or.inl (List.mem_singleton.mpr rfl))

/-! ## Claim theorems -/

/-- C7: for every pair of input snapshots, the `DriftReport` returned by
`compare` satisfies `total_issues = issues.length` and
`high_severity + medium_severity + low_severity = total_issues`. -/
theorem claim7_totals_consistent {A B : SchemaDict} {r : DriftReport}
    (h : compare A B = Except.ok r) :
    r.total_issues = r.issues.length ∧
    r.high_severity + r.medium_severity + r.low_severity = r.total_issues := by
  obtain ⟨⟨nt, ns, issues, rfl⟩, _⟩ := compare_ok_inv h
  exact ⟨rfl, countP_severities issues⟩

theorem claim7_witness :
    (mkReport 0 0 []).total_issues = (mkReport 0 0 []).issues.length ∧
    (mkReport 0 0 []).high_severity + (mkReport 0 0 []).medium_severity +
      (mkReport 0 0 []).low_severity = (mkReport 0 0 []).total_issues :=
  claim7_totals_consistent (A := emptySchema) (B := emptySchema) rfl

/-- C10: no report returned by `compare` contains a low-severity issue or a
`description_mismatch` issue, and its `low_severity` count is zero. -/
theorem claim10_no_low_no_description {A B : SchemaDict} {r : DriftReport}
    (h : compare A B = Except.ok r) :
    (∀ i ∈ r.issues, i.severity ≠ DriftSeverity.low ∧
      i.drift_type ≠ DriftType.description_mismatch) ∧
    r.low_severity = 0 := by
  obtain ⟨⟨nt, ns, issues, rfl⟩, hinv⟩ := compare_ok_inv h
  constructor
  · intro i hi
    obtain ⟨hsev, hdesc, _⟩ := hinv i hi
    refine ⟨?_, hdesc⟩
    rcases hsev with h' | h' <;> simp [h']
  · show issues.countP _ = 0
    rw [List.countP_eq_zero]
    intro i hi
    obtain ⟨hsev, _, _⟩ := hinv i hi
    rcases hsev with h' | h' <;> simp [h']

theorem claim10_witness :
    (∀ i ∈ (mkReport 0 0 []).issues, i.severity ≠ DriftSeverity.low ∧
      i.drift_type ≠ DriftType.description_mismatch) ∧
    (mkReport 0 0 []).low_severity = 0 :=
  claim10_no_low_no_description (A := emptySchema) (B := emptySchema) rfl

/-- C5: for every pair of snapshots, `compare` never flags a `VARCHAR`
documented type against a `STRING` live type (no returned report contains
such a `type_mismatch` issue); and for every pair of snapshots containing
a common table with a common column — the table records `compare` selects
for canonical name `T` on both sides, holding the canonical column name
`C` in both column dicts — whose documented type is `VARCHAR` and live
type `INTEGER`, the report contains a HIGH `type_mismatch` issue for
`T.C` recording that pair.  The one-table scenarios instantiate both
halves concretely. -/
theorem claim5_type_equivalence :
    (∀ {A B : SchemaDict} {r : DriftReport}, compare A B = Except.ok r →
      ∀ i ∈ r.issues, i.drift_type = DriftType.type_mismatch →
        ¬(i.expected_value = some "VARCHAR" ∧ i.actual_value = some "STRING")) ∧
    (∀ {A B : SchemaDict} {r : DriftReport} (T C : String)
      (dt at' : TableDict) (dc ac : ColumnDict),
      compare A B = Except.ok r →
      ((namedPairs (A.tables.getD [])).find?
        (fun p => decide (p.1 = T))).map Prod.snd = some dt →
      ((namedPairs (B.tables.getD [])).find?
        (fun p => decide (p.1 = T))).map Prod.snd = some at' →
      dictGet (buildColDict (colNamedPairs (dt.columns.getD []))) C = some dc →
      dictGet (buildColDict (colNamedPairs (at'.columns.getD []))) C = some ac →
      pyUpper (dc.data_type.getD "") = "VARCHAR" →
      pyUpper (ac.data_type.getD "") = "INTEGER" →
      ∃ i ∈ r.issues, i.drift_type = DriftType.type_mismatch ∧
        i.severity = DriftSeverity.high ∧ i.table_name = T ∧
        i.column_name = some C ∧ i.expected_value = some "VARCHAR" ∧
        i.actual_value = some "INTEGER") ∧
    compare ordersVarcharDoc ordersStringLive = Except.ok (mkReport 1 1 []) ∧
    compare ordersVarcharDoc ordersIntegerLive =
      Except.ok (mkReport 1 1 [ordersTypeIssue]) := by
  refine ⟨?_, ?_, rfl, rfl⟩
  · intro A B r h i hi htype hpair
    obtain ⟨he, ha⟩ := hpair
    obtain ⟨_, _, hmis⟩ := (compare_ok_inv h).2 i hi
    obtain ⟨_, dt, av, hdt, hav, hcompat⟩ := hmis htype
    rw [he] at hdt
    rw [ha] at hav
    simp only [Option.some.injEq] at hdt hav
    subst hdt
    subst hav
    exact absurd hcompat (by decide)
  · intro A B r T C dt at' dc ac h hdt hat hdc hac hdty haty
    obtain ⟨lists, hlists, hsub⟩ := compare_ok_elim h
    obtain ⟨prd, hprd, hprd2⟩ := Option.map_eq_some'.mp hdt
    obtain ⟨pra, hpra, hpra2⟩ := Option.map_eq_some'.mp hat
    have hTd : T ∈ pySet ((namedPairs (A.tables.getD [])).map Prod.fst) := by
      rw [mem_pySet]
      have hf := List.find?_some hprd
      simp only [decide_eq_true_eq] at hf
      rw [← hf]
      exact List.mem_map.mpr ⟨prd, List.mem_of_find?_eq_some hprd, rfl⟩
    have hTa : T ∈ pySet ((namedPairs (B.tables.getD [])).map Prod.fst) := by
      rw [mem_pySet]
      have hf := List.find?_some hpra
      simp only [decide_eq_true_eq] at hf
      rw [← hf]
      exact List.mem_map.mpr ⟨pra, List.mem_of_find?_eq_some hpra, rfl⟩
    have hTc : T ∈ pyInter
        (pySet ((namedPairs (A.tables.getD [])).map Prod.fst))
        (pySet ((namedPairs (B.tables.getD [])).map Prod.fst)) := by
      simp only [pyInter, List.mem_filter, decide_eq_true_eq]
      exact ⟨hTd, hTa⟩
    obtain ⟨l, hl, hfl⟩ := mapExcept_ok_forall hlists T hTc
    unfold commonTableIssues at hfl
    rw [hdt, hat] at hfl
    obtain ⟨i, hi, hP⟩ := compare_columns_flags hfl hdc hac hdty haty
    exact ⟨i, hsub i (List.mem_flatten.mpr ⟨l, hl, hi⟩), hP⟩

theorem claim5_witness :
    (¬(ordersTypeIssue.expected_value = some "VARCHAR" ∧
       ordersTypeIssue.actual_value = some "STRING")) ∧
    (∃ i ∈ (mkReport 1 1 [ordersTypeIssue]).issues,
      i.drift_type = DriftType.type_mismatch ∧
      i.severity = DriftSeverity.high ∧ i.table_name = "ORDERS" ∧
      i.column_name = some "ID" ∧ i.expected_value = some "VARCHAR" ∧
      i.actual_value = some "INTEGER") :=
  ⟨claim5_type_equivalence.1 (A := ordersVarcharDoc) (B := ordersIntegerLive)
    (r := mkReport 1 1 [ordersTypeIssue]) rfl ordersTypeIssue
    (List.mem_singleton.mpr rfl) rfl,
   claim5_type_equivalence.2.1 (A := ordersVarcharDoc)
    (B := ordersIntegerLive) (r := mkReport 1 1 [ordersTypeIssue])
    "ORDERS" "ID"
    ⟨some "ORDERS", some [⟨some "ID", some "VARCHAR", none⟩]⟩
    ⟨some "ORDERS", some [⟨some "ID", some "INTEGER", none⟩]⟩
    ⟨some "ID", some "VARCHAR", none⟩
    ⟨some "ID", some "INTEGER", none⟩
    rfl (by decide) (by decide) (by decide) (by decide)
    (by decide) (by decide)⟩

/-- C4: comparing a snapshot (all names present, column names unique per
table after canonicalization) against an identical live schema yields a
report with zero issues. -/
theorem claim4_compare_self_zero_issues {A : SchemaDict}
    (h : NamesPresent A) (h' : ColumnsUnique A) :
    ∃ r, compare A A = Except.ok r ∧ r.total_issues = 0 ∧ r.issues = [] := by
  have hmap := namedPairs_ok h
  have hthird : mapExcept
      (commonTableIssues (namedPairs (A.tables.getD []))
        (namedPairs (A.tables.getD [])))
      (pySet ((namedPairs (A.tables.getD [])).map Prod.fst)) =
      Except.ok (((pySet ((namedPairs (A.tables.getD [])).map Prod.fst))).map
        (fun _ => [])) :=
    mapExcept_eq_map (fun tn _ => commonTableIssues_self (namedPairs_cols h) tn)
  have hflat : ((pySet ((namedPairs (A.tables.getD [])).map Prod.fst)).map
      (fun _ => ([] : List DriftIssue))).flatten = [] := by
    rw [List.flatten_eq_nil_iff]
    intro l hl
    rcases List.mem_map.mp hl with ⟨y, _, hy⟩
    exact hy.symm
  unfold compare
  rw [hmap]
  simp only
  rw [pyDiff_self, pyInter_self, hthird]
  simp only [List.map_nil, List.nil_append, hflat]
  exact ⟨_, rfl, rfl, rfl⟩

theorem claim4_witness :
    NamesPresent ordersVarcharDoc ∧ ColumnsUnique ordersVarcharDoc ∧
    ∃ r, compare ordersVarcharDoc ordersVarcharDoc = Except.ok r ∧
      r.total_issues = 0 ∧ r.issues = [] :=
  ⟨by unfold NamesPresent; decide, by unfold ColumnsUnique; decide,
    claim4_compare_self_zero_issues (by unfold NamesPresent; decide)
      (by unfold ColumnsUnique; decide)⟩

/-- C9 counterexample: a table record lacking the `table_name` key makes
`compare` raise `KeyError` rather than defaulting, so "never cause compare
to raise an exception" fails on this input. -/
theorem claim9_counterexample :
    compare unnamedTableSchema emptySchema =
      Except.error "KeyError: table_name" := rfl

/-- C9 (amended): an absent `tables` list, a table without a `columns`
list, a column without a `data_type` and a column without `nullable` all
default harmlessly — whenever every table record carries `table_name` and
every column record carries `column_name`, `compare` returns a report and
never raises. -/
theorem claim9_defaults_no_raise {A B : SchemaDict}
    (h : NamesPresent A) (h' : NamesPresent B) :
    ∃ r, compare A B = Except.ok r := by
  have hmapA := namedPairs_ok h
  have hmapB := namedPairs_ok h'
  obtain ⟨ls, hls⟩ := mapExcept_total
    (f := commonTableIssues (namedPairs (A.tables.getD []))
      (namedPairs (B.tables.getD [])))
    (l := pyInter (pySet ((namedPairs (A.tables.getD [])).map Prod.fst))
      (pySet ((namedPairs (B.tables.getD [])).map Prod.fst)))
    (fun tn _ =>
      commonTableIssues_total (namedPairs_cols h) (namedPairs_cols h') tn)
  unfold compare
  rw [hmapA, hmapB]
  simp only
  rw [hls]
  exact ⟨_, rfl⟩

theorem claim9_witness :
    NamesPresent (SchemaDict.mk (some [TableDict.mk (some "T") none])) ∧
    NamesPresent emptySchema ∧
    ∃ r, compare (SchemaDict.mk (some [TableDict.mk (some "T") none]))
      emptySchema = Except.ok r :=
  ⟨by unfold NamesPresent; decide, by unfold NamesPresent; decide,
    claim9_defaults_no_raise (by unfold NamesPresent; decide)
      (by unfold NamesPresent; decide)⟩

theorem downTrav_depth_bound :
    ∀ (fuel : Nat) (nodes : List (String × LineageNode))
      (edges : List LineageEdge) (cur : String) (curDepth : Nat)
      (st : TravState),
      ∀ x ∈ (downTrav nodes edges fuel cur curDepth st).2,
        x ∈ st.2 ∨ (curDepth ≤ x.depth ∧ x.depth < curDepth + fuel) := by
  intro fuel
  induction fuel with
  | zero => intro nodes edges cur curDepth st x hx; exact Or.inl hx
  | succ fuel ih =>
    intro nodes edges cur curDepth st x hx
    rw [downTrav] at hx
    by_cases hv : cur ∈ st.1
    · rw [if_pos hv] at hx; exact Or.inl hx
    · rw [if_neg hv] at hx
      have go : ∀ (pending : List LineageEdge) (st' : TravState),
          (∀ y ∈ st'.2, y ∈ st.2 ∨
            (curDepth ≤ y.depth ∧ y.depth < curDepth + (fuel + 1))) →
          ∀ y ∈ (downGo nodes
            (fun tid => downTrav nodes edges fuel tid (curDepth + 1))
            cur curDepth pending st').2,
            y ∈ st.2 ∨
              (curDepth ≤ y.depth ∧ y.depth < curDepth + (fuel + 1)) := by
        intro pending
        induction pending with
        | nil => intro st' hst' y hy; rw [downGo] at hy; exact hst' y hy
        | cons e rest ihp =>
          intro st' hst' y hy
          rw [downGo] at hy
          by_cases hsrc : e.source_id = cur
          · rw [if_pos hsrc] at hy
            cases hn : nodeGet nodes e.target_id with
            | none => rw [hn] at hy; exact ihp st' hst' y hy
            | some node =>
              rw [hn] at hy
              simp only at hy
              refine ihp _ ?_ y hy
              intro z hz
              rcases ih nodes edges e.target_id (curDepth + 1) _ z hz with
                hz1 | hz2
              · rcases List.mem_append.mp hz1 with h | h
                · exact hst' z h
                · rcases List.mem_singleton.mp h with rfl
                  exact Or.inr ⟨Nat.le_refl _,
                    show curDepth < curDepth + (fuel + 1) by omega⟩
              · exact Or.inr ⟨by omega, by omega⟩
          · rw [if_neg hsrc] at hy; exact ihp st' hst' y hy
      exact go edges (st.1 ++ [cur], st.2) (fun y hy => Or.inl hy) x hx

theorem upTrav_depth_bound :
    ∀ (fuel : Nat) (nodes : List (String × LineageNode))
      (edges : List LineageEdge) (cur : String) (curDepth : Nat)
      (st : TravState),
      ∀ x ∈ (upTrav nodes edges fuel cur curDepth st).2,
        x ∈ st.2 ∨ (curDepth ≤ x.depth ∧ x.depth < curDepth + fuel) := by
  intro fuel
  induction fuel with
  | zero => intro nodes edges cur curDepth st x hx; exact Or.inl hx
  | succ fuel ih =>
    intro nodes edges cur curDepth st x hx
    rw [upTrav] at hx
    by_cases hv : cur ∈ st.1
    · rw [if_pos hv] at hx; exact Or.inl hx
    · rw [if_neg hv] at hx
      have go : ∀ (pending : List LineageEdge) (st' : TravState),
          (∀ y ∈ st'.2, y ∈ st.2 ∨
            (curDepth ≤ y.depth ∧ y.depth < curDepth + (fuel + 1))) →
          ∀ y ∈ (upGo nodes
            (fun sid => upTrav nodes edges fuel sid (curDepth + 1))
            cur curDepth pending st').2,
            y ∈ st.2 ∨
              (curDepth ≤ y.depth ∧ y.depth < curDepth + (fuel + 1)) := by
        intro pending
        induction pending with
        | nil => intro st' hst' y hy; rw [upGo] at hy; exact hst' y hy
        | cons e rest ihp =>
          intro st' hst' y hy
          rw [upGo] at hy
          by_cases htgt : e.target_id = cur
          · rw [if_pos htgt] at hy
            cases hn : nodeGet nodes e.source_id with
            | none => rw [hn] at hy; exact ihp st' hst' y hy
            | some node =>
              rw [hn] at hy
              simp only at hy
              refine ihp _ ?_ y hy
              intro z hz
              rcases ih nodes edges e.source_id (curDepth + 1) _ z hz with
                hz1 | hz2
              · rcases List.mem_append.mp hz1 with h | h
                · exact hst' z h
                · rcases List.mem_singleton.mp h with rfl
                  exact Or.inr ⟨Nat.le_refl _,
                    show curDepth < curDepth + (fuel + 1) by omega⟩
              · exact Or.inr ⟨by omega, by omega⟩
          · rw [if_neg htgt] at hy; exact ihp st' hst' y hy
      exact go edges (st.1 ++ [cur], st.2) (fun y hy => Or.inl hy) x hx

/-- C1 counterexample: in the diamond graph, `get_downstream` from S at
depth 3 reports C twice (once per path), so "every node appears at most
once in the returned list" is false. -/
theorem claim1_counterexample :
    ¬((get_downstream diamondGraph "S" 3).map TraversalEntry.id).Nodup := by
  decide

/-- C1 (amended): `get_downstream` and `get_upstream` terminate on every
graph — each reported entry carries a depth between 1 and `maxDepth`, as
the visited set and the depth guard bound the recursion — and in the
cycle A→B→C→A, `get_downstream A 5` returns each of B and C exactly once;
but a node reachable via two different in-edges may appear once per such
edge, not once overall. -/
theorem claim1_traversal_bounded :
    (∀ (g : LineageGraph) (n : String) (d : Nat),
      ∀ x ∈ get_downstream g n d, 1 ≤ x.depth ∧ x.depth ≤ d) ∧
    (∀ (g : LineageGraph) (n : String) (d : Nat),
      ∀ x ∈ get_upstream g n d, 1 ≤ x.depth ∧ x.depth ≤ d) ∧
    (get_downstream cycleGraph "A" 5).map TraversalEntry.id = ["B", "C", "A"] := by
  refine ⟨?_, ?_, by decide⟩
  · intro g n d x hx
    rcases downTrav_depth_bound d g.nodes g.edges n 1 ([], []) x hx with h | h
    · simp at h
    · exact ⟨h.1, by omega⟩
  · intro g n d x hx
    rcases upTrav_depth_bound d g.nodes g.edges n 1 ([], []) x hx with h | h
    · simp at h
    · exact ⟨h.1, by omega⟩

theorem claim1_witness :
    1 ≤ (TraversalEntry.mk "B" "B" "table" "documented_in" 1).depth ∧
    (TraversalEntry.mk "B" "B" "table" "documented_in" 1).depth ≤ 5 :=
  claim1_traversal_bounded.1 cycleGraph "A" 5
    (TraversalEntry.mk "B" "B" "table" "documented_in" 1) (by decide)

/-- C6 counterexample: on a state that already holds an a→b edge labelled
r0, `add_edge a b "r1"` followed by `add_edge a b "r2"` leaves exactly the
pre-existing edge, which carries r0 — not r1 as the claim states for every
graph state. -/
theorem claim6_counterexample :
    (add_edge (add_edge preEdgedGraph "a" "b" "r1" none) "a" "b" "r2"
      none).edges =
      [{ source_id := "a", target_id := "b", relationship := "r0",
         metadata := [] }] ∧
    ¬∃ e ∈ (add_edge (add_edge preEdgedGraph "a" "b" "r1" none) "a" "b" "r2"
      none).edges, e.relationship = "r1" := ⟨by decide, by decide⟩

/-- C6 (amended): on a graph state with no a→b edge, `add_edge a b r1` then
`add_edge a b r2` leaves exactly one a→b edge and it carries r1; on a state
that already holds an a→b edge, `add_edge` is a silent no-op regardless of
its relationship label, leaving the pre-existing edge. -/
theorem claim6_add_edge_dedup (g : LineageGraph) (a b r1 r2 : String)
    (m1 m2 : Option (List (String × Option String))) :
    ((∀ e ∈ g.edges, ¬(e.source_id = a ∧ e.target_id = b)) →
      (add_edge (add_edge g a b r1 m1) a b r2 m2).edges.filter
        (fun e => decide (e.source_id = a) && decide (e.target_id = b)) =
        [{ source_id := a, target_id := b, relationship := r1,
           metadata := m1.getD [] }]) ∧
    ((∃ e ∈ g.edges, e.source_id = a ∧ e.target_id = b) →
      add_edge g a b r1 m1 = g) := by
  constructor
  · intro h
    have hany : g.edges.any
        (fun e => decide (e.source_id = a) && decide (e.target_id = b)) =
        false := by
      rw [List.any_eq_false]
      intro e he
      simp only [Bool.and_eq_true, decide_eq_true_eq]
      exact h e he
    have h1 : add_edge g a b r1 m1 =
        { g with edges := g.edges ++
            [{ source_id := a, target_id := b, relationship := r1,
               metadata := m1.getD [] }] } := by
      unfold add_edge
      rw [hany]
      simp
    rw [h1]
    have hany2 : ({ g with edges := g.edges ++
        [{ source_id := a, target_id := b, relationship := r1,
           metadata := m1.getD [] }] } : LineageGraph).edges.any
        (fun e => decide (e.source_id = a) && decide (e.target_id = b)) =
        true := by
      simp [List.any_append]
    have h2 : add_edge { g with edges := g.edges ++
        [{ source_id := a, target_id := b, relationship := r1,
           metadata := m1.getD [] }] } a b r2 m2 =
        { g with edges := g.edges ++
            [{ source_id := a, target_id := b, relationship := r1,
               metadata := m1.getD [] }] } := by
      unfold add_edge
      rw [hany2]
      simp
    rw [h2]
    simp only [List.filter_append]
    have hnil : g.edges.filter
        (fun e => decide (e.source_id = a) && decide (e.target_id = b)) =
        [] := by
      rw [List.filter_eq_nil_iff]
      intro e he
      simp only [Bool.and_eq_true, decide_eq_true_eq]
      exact h e he
    rw [hnil]
    simp
  · rintro ⟨e, he, h1, h2⟩
    unfold add_edge
    rw [if_pos]
    rw [List.any_eq_true]
    exact ⟨e, he, by simp [h1, h2]⟩

theorem claim6_witness :
    (add_edge (add_edge emptyGraph "a" "b" "r1" none) "a" "b" "r2"
      none).edges.filter
      (fun e => decide (e.source_id = "a") && decide (e.target_id = "b")) =
      [{ source_id := "a", target_id := "b", relationship := "r1",
         metadata := [] }] :=
  (claim6_add_edge_dedup emptyGraph "a" "b" "r1" "r2" none none).1 (by decide)

/-- C8: when fetch succeeds and extraction yields no schema or a schema
with zero tables, the job returns success with the "No tables found"
warning and starts no further pipeline step. -/
theorem claim8_zero_tables_success (env : SyncEnv) (c d q : Bool)
    (o : Option SchemaDict)
    (h1 : env.page.isSome = true)
    (h2 : env.extract = Except.ok o)
    (h3 : ∀ s, o = some s → s.tables.getD [] = []) :
    (sync_confluence_page env c d q).1.success = true ∧
    (sync_confluence_page env c d q).1.warnings =
      ["No tables found in content"] ∧
    (sync_confluence_page env c d q).2 = [Step.fetch, Step.extract] := by
  cases hp : env.page with
  | none => rw [hp] at h1; simp at h1
  | some p =>
  cases o with
  | none =>
    unfold sync_confluence_page
    rw [hp, h2]
    exact ⟨rfl, rfl, rfl⟩
  | some s =>
    have hs := h3 s rfl
    unfold sync_confluence_page
    rw [hp, h2]
    simp only
    rw [if_pos hs]
    exact ⟨rfl, rfl, rfl⟩

theorem claim8_witness :
    (sync_confluence_page noTablesEnv false false false).1.success = true ∧
    (sync_confluence_page noTablesEnv false false false).1.warnings =
      ["No tables found in content"] ∧
    (sync_confluence_page noTablesEnv false false false).2 =
      [Step.fetch, Step.extract] :=
  claim8_zero_tables_success noTablesEnv false false false none rfl rfl
    (fun s h => nomatch h)

/-- C2 counterexample: with lineage enabled and every other collaborator
healthy, a raise inside the lineage-registration block makes the job
return success=false, with no drift check, warehouse write or artifact
step started — the error is fatal, not log-and-continue. -/
theorem claim2_counterexample :
    (sync_confluence_page lineageFailEnv false false false).1.success = false ∧
    (sync_confluence_page lineageFailEnv false false false).1.errors =
      ["lineage boom"] ∧
    Step.drift ∉ (sync_confluence_page lineageFailEnv false false false).2 ∧
    Step.write ∉ (sync_confluence_page lineageFailEnv false false false).2 := by
  decide

/-- C2 (amended): with lineage enabled, an error raised while registering
lineage is caught by the job-level handler, which appends it to `errors`
and returns success=false; the remaining pipeline steps (drift check,
warehouse write, artifacts, quality) never start, and nothing propagates
past the job boundary. -/
theorem claim2_lineage_error_fatal (env : SyncEnv) (c d q : Bool)
    (msg : String)
    (h1 : env.page.isSome = true)
    (h2 : ∃ s, env.extract = Except.ok (some s) ∧ s.tables.getD [] ≠ [])
    (h3 : env.vector_enabled = true → env.vector_add = Except.ok ())
    (h4 : env.lineage_enabled = true)
    (h5 : env.lineage_register = Except.error msg) :
    (sync_confluence_page env c d q).1.success = false ∧
    msg ∈ (sync_confluence_page env c d q).1.errors ∧
    (sync_confluence_page env c d q).2 =
      [Step.fetch, Step.extract] ++
        (if env.vector_enabled then [Step.vector] else []) ++
        [Step.lineage] := by
  obtain ⟨s, hex, hne⟩ := h2
  cases hp : env.page with
  | none => rw [hp] at h1; simp at h1
  | some p =>
  have hv : (if env.vector_enabled then env.vector_add else Except.ok ()) =
      Except.ok () := by
    by_cases hb : env.vector_enabled = true
    · rw [if_pos hb]; exact h3 hb
    · rw [if_neg hb]
  have hl : (if env.lineage_enabled then env.lineage_register
      else Except.ok ()) = Except.error msg := by
    rw [if_pos h4, h5]
  unfold sync_confluence_page
  rw [hp, hex]
  simp only
  rw [if_neg hne, hv, hl]
  simp only [h4, if_true, List.append_assoc]
  exact ⟨trivial, by simp, trivial⟩

theorem claim2_witness :
    (sync_confluence_page lineageFailEnv false false false).1.success =
      false ∧
    "lineage boom" ∈ (sync_confluence_page lineageFailEnv false false
      false).1.errors ∧
    (sync_confluence_page lineageFailEnv false false false).2 =
      [Step.fetch, Step.extract] ++
        (if lineageFailEnv.vector_enabled then [Step.vector] else []) ++
        [Step.lineage] :=
  claim2_lineage_error_fatal lineageFailEnv false false false "lineage boom"
    rfl ⟨mkSingle "ORDERS" "ID" "VARCHAR", rfl, by decide⟩
    (fun h => nomatch h) rfl rfl

/-- C3: in a 3-job batch where job 2's fetch fails and jobs 1 and 3
succeed, `batch_sync` reports total 3, successful 2, failed 1, with the
results in submission order and each equal to the job's standalone
`sync_confluence_page` result; the failed fetch is converted into a
failed result rather than propagating. -/
theorem claim3_batch_isolation (e1 e2 e3 : SyncEnv) (d : Bool)
    (h1 : (sync_confluence_page e1 d false false).1.success = true)
    (h2 : e2.page = none)
    (h3 : (sync_confluence_page e3 d false false).1.success = true) :
    (batch_sync [e1, e2, e3] d).total_sources = 3 ∧
    (batch_sync [e1, e2, e3] d).successful = 2 ∧
    (batch_sync [e1, e2, e3] d).failed = 1 ∧
    (batch_sync [e1, e2, e3] d).results =
      [(sync_confluence_page e1 d false false).1,
       (sync_confluence_page e2 d false false).1,
       (sync_confluence_page e3 d false false).1] := by
  have hs2 : (sync_confluence_page e2 d false false).1.success = false := by
    unfold sync_confluence_page
    rw [h2]
  refine ⟨rfl, ?_, ?_, rfl⟩
  · show ([(sync_confluence_page e1 d false false).1,
      (sync_confluence_page e2 d false false).1,
      (sync_confluence_page e3 d false false).1].countP
        (fun r => r.success)) = 2
    simp [List.countP_cons, h1, hs2, h3]
  · show ([(sync_confluence_page e1 d false false).1,
      (sync_confluence_page e2 d false false).1,
      (sync_confluence_page e3 d false false).1].countP
        (fun r => !r.success)) = 1
    simp [List.countP_cons, h1, hs2, h3]

theorem claim3_witness :
    (batch_sync [okEnv, fetchFailEnv, okEnv] false).total_sources = 3 ∧
    (batch_sync [okEnv, fetchFailEnv, okEnv] false).successful = 2 ∧
    (batch_sync [okEnv, fetchFailEnv, okEnv] false).failed = 1 ∧
    (batch_sync [okEnv, fetchFailEnv, okEnv] false).results =
      [(sync_confluence_page okEnv false false false).1,
       (sync_confluence_page fetchFailEnv false false false).1,
       (sync_confluence_page okEnv false false false).1] :=
  claim3_batch_isolation okEnv fetchFailEnv okEnv false (by decide) rfl
    (by decide)

end Snowlink
